import Mathlib

/-!
Verification of the staking decision procedure of `scripts/staking.py`.

The script is a linear sequence of read-contract / decide / send-transaction
steps.  We embed it shallowly: each chain query becomes a lookup in a fixed
snapshot of per-contract state, each interactive prompt reads from a fixed
table of operator answers, and the run produces an exit code together with a
trace of observable events (chain reads, prompts consumed, transaction
batches submitted).  Timestamps and durations are integers, reward amounts
are naturals (wei values), slot counts are integers.
-/

namespace StakingScript

/-- Fields of the staking-contract state that the script reads from chain. -/
inductive Field
  | serviceIds
  | isStaked
  | isEvicted
  | tsStart
  | minDuration
  | availableRewards
  | availableSlots
  | nextCheckpointTs
  | livenessPeriod
deriving DecidableEq, Repr

/-- A transaction batch submitted by the script: either the stake batch built
by `get_stake_txs` (parameterized by service registry and staking contract
addresses) or the unstake batch built by `get_unstake_txs` (parameterized by
the staking contract address).  Each batch is sent transaction by
transaction, waiting for each receipt, by `send_tx_and_wait_for_receipt`. -/
inductive BatchKind
  | stakeB (registryAddr : String) (stakingAddr : String)
  | unstakeB (stakingAddr : String)
deriving DecidableEq, Repr

/-- Observable events of a run: chain reads, operator prompts consumed
(`input(...)` call sites), and transaction-batch submissions. -/
inductive Event
  | read (addr : String) (f : Field)
  | promptE (site : String)
  | sendBatch (b : BatchKind)
deriving DecidableEq, Repr

/-- Snapshot of the on-chain state of one staking contract, as seen through
the read-only queries of `utils`: `get_service_ids`, `is_service_staked`,
`is_service_evicted`, `get_service_info` (whose index 3 is the stake start
timestamp), `get_min_staking_duration`, `get_available_rewards`,
`get_available_staking_slots`, `get_next_checkpoint_ts`,
`get_liveness_period`.  The service id is fixed for a run, so the
service-dependent queries are snapshot fields. -/
structure ContractState where
  stakedIds : List Int
  isStaked : Bool
  isEvicted : Bool
  tsStart : Int
  minStakingDuration : Int
  availableRewards : Nat
  availableSlots : Int
  nextCheckpointTs : Int
  livenessPeriod : Int
deriving Repr

/-- The chain: per-contract-address state, frozen for one run. -/
abbrev Chain := String → ContractState

/-- Operator answers, one per `input(...)` call site.  `oldAck` and
`oldConfirm` are keyed by the legacy program name since the sweep loops over
programs. -/
structure Inputs where
  oldAck : String → String
  oldConfirm : String → String
  evictionAck : String
  checkpointConfirm : String

/-- Outcome of a sweep step: either the whole run terminates via `sys.exit`
with the given code, or control continues; both carry the events so far. -/
inductive StepOut
  | exit (code : Nat) (tr : List Event)
  | cont (tr : List Event)
deriving DecidableEq, Repr

/-- The event trace of a sweep step, whether it exited or continued. -/
def StepOut.trace : StepOut → List Event
  | StepOut.exit _ tr => tr
  | StepOut.cont tr => tr

/-- Model of Python `str.lower` for the ASCII strings compared by the
script. -/
def lowerChar (c : Char) : Char :=
  if 65 ≤ c.toNat ∧ c.toNat ≤ 90 then Char.ofNat (c.toNat + 32) else c

/-- Model of Python `str.lower` on whole strings. -/
def lowerStr (s : String) : String := ⟨s.data.map lowerChar⟩

/-- Model of Python `str.startswith`. -/
def pyStartswith (s p : String) : Bool := p.data.isPrefixOf s.data

/-- Model of Python `bool(s)` applied to a string, as done by
`argparse` for the positional `unstake` argument declared with
`type=bool`: a string is truthy iff it is non-empty. -/
def pyBool (s : String) : Bool := !(s == "")

/-- Address of the deprecated Everest staking program. -/
def EverestAddr : String := "0x5add592ce0a1B5DceCebB5Dcac086Cd9F9e3eA5C"

/-- Address of the deprecated Alpine staking program. -/
def AlpineAddr : String := "0x2Ef503950Be67a98746F484DA0bBAdA339DF3326"

/-- Address of the deprecated CoastalTest staking program. -/
def CoastalTestAddr : String := "0x97371B1C0cDA1D04dFc43DFb50a04645b7Bc9BEe"

/-- The fixed table of deprecated staking programs (`OLD_STAKING_PROGRAMS`
in `staking.py`), in iteration order. -/
def OLD_STAKING_PROGRAMS : List (String × String) :=
  [("Everest", EverestAddr), ("Alpine", AlpineAddr), ("CoastalTest", CoastalTestAddr)]

/-- Embedding of `_check_unstaking_availability` (staking.py lines
129-153): reads the stake start timestamp (`get_service_info(...)[3]`), the
minimum staking duration and the available rewards of the given contract;
returns `false` (cannot unstake) iff the service has been staked for less
than the minimum duration while rewards remain, else `true`.  The second
component is the list of chain reads performed. -/
def check_unstaking_availability (chain : Chain) (now : Int) (service_id : Int)
    (staking_contract_address : String) (staking_program : String) :
    Bool × List Event :=
  if now - (chain staking_contract_address).tsStart <
        (chain staking_contract_address).minStakingDuration ∧
      0 < (chain staking_contract_address).availableRewards then
    (false,
     [Event.read staking_contract_address Field.tsStart,
      Event.read staking_contract_address Field.minDuration,
      Event.read staking_contract_address Field.availableRewards])
  else
    (true,
     [Event.read staking_contract_address Field.tsStart,
      Event.read staking_contract_address Field.minDuration,
      Event.read staking_contract_address Field.availableRewards])

/-- Embedding of `_try_stake_service` (staking.py lines 156-194): if the
contract has staking slots available, read the rewards; with zero rewards
exit 0 without staking, otherwise submit the stake batch and exit 0.  With
no slots available, exit 1. -/
def try_stake_service (chain : Chain) (service_id : Int)
    (service_registry_address : String) (staking_contract_address : String)
    (staking_program : String) : Nat × List Event :=
  if 0 < (chain staking_contract_address).availableSlots then
    if (chain staking_contract_address).availableRewards = 0 then
      (0, [Event.read staking_contract_address Field.availableSlots,
           Event.read staking_contract_address Field.availableRewards])
    else
      (0, [Event.read staking_contract_address Field.availableSlots,
           Event.read staking_contract_address Field.availableRewards,
           Event.sendBatch
             (BatchKind.stakeB service_registry_address staking_contract_address)])
  else
    (1, [Event.read staking_contract_address Field.availableSlots])

/-- Embedding of the confirmation tail of `_unstake_old_program`
(staking.py lines 102-118): prompt the operator; any answer that does not
lower-case to yes or y exits 1; otherwise submit the program's unstake
batch and continue with the next program.  `tr0` carries the events of the
preceding checks. -/
def old_program_confirm (inputs : Inputs) (service_id : Int)
    (staking_contract_address : String) (staking_program : String)
    (tr0 : List Event) : StepOut :=
  if lowerStr (inputs.oldConfirm staking_program) ∈ (["yes", "y"] : List String) then
    StepOut.cont (tr0 ++ [Event.promptE "old_confirm",
      Event.sendBatch (BatchKind.unstakeB staking_contract_address)])
  else
    StepOut.exit 1 (tr0 ++ [Event.promptE "old_confirm"])

/-- Embedding of `_unstake_old_program` (staking.py lines 63-118).  For a
program whose name starts with Everest the staked check is a membership
query on `get_service_ids`; for the others it is `is_service_staked`
followed by `_check_unstaking_availability`, whose failure prompts an
acknowledgement and exits 0.  A service found staked then goes through the
confirmation tail. -/
def unstake_old_program (chain : Chain) (now : Int) (inputs : Inputs)
    (service_id : Int) (staking_contract_address : String)
    (staking_program : String) : StepOut :=
  if pyStartswith staking_program "Everest" then
    if service_id ∈ (chain staking_contract_address).stakedIds then
      old_program_confirm inputs service_id staking_contract_address staking_program
        [Event.read staking_contract_address Field.serviceIds]
    else
      StepOut.cont [Event.read staking_contract_address Field.serviceIds]
  else
    if (chain staking_contract_address).isStaked then
      if (check_unstaking_availability chain now service_id
            staking_contract_address staking_program).1 then
        old_program_confirm inputs service_id staking_contract_address staking_program
          (Event.read staking_contract_address Field.isStaked ::
            (check_unstaking_availability chain now service_id
              staking_contract_address staking_program).2)
      else
        StepOut.exit 0
          (Event.read staking_contract_address Field.isStaked ::
            (check_unstaking_availability chain now service_id
              staking_contract_address staking_program).2 ++
            [Event.promptE "old_ack"])
    else
      StepOut.cont [Event.read staking_contract_address Field.isStaked]

/-- One iteration of the sweep loop in `_unstake_all_old_programs`: once a
step has exited, the run is over; otherwise run the next program and append
its events. -/
def stepProg (chain : Chain) (now : Int) (inputs : Inputs) (service_id : Int)
    (acc : StepOut) (p : String × String) : StepOut :=
  match acc with
  | StepOut.exit c tr => StepOut.exit c tr
  | StepOut.cont tr =>
    match unstake_old_program chain now inputs service_id p.2 p.1 with
    | StepOut.exit c tr2 => StepOut.exit c (tr ++ tr2)
    | StepOut.cont tr2 => StepOut.cont (tr ++ tr2)

/-- Embedding of `_unstake_all_old_programs` (staking.py lines 121-126):
fold `_unstake_old_program` over the fixed deprecated-program table. -/
def unstake_all_old_programs (chain : Chain) (now : Int) (inputs : Inputs)
    (service_id : Int) : StepOut :=
  OLD_STAKING_PROGRAMS.foldl (stepProg chain now inputs service_id) (StepOut.cont [])

/-- Embedding of the decision engine: the body of `main` after the legacy
sweep (staking.py lines 240-390).  First the checkpoint timestamp, liveness
period and available rewards are read (the rewards read on line 245 is
never used before being shadowed).  Then either the explicit-unstake branch
(lines 249-313) or the stake/keep/evict branch (lines 315-390) runs.
Returns the exit code and the event trace. -/
def decision_engine (chain : Chain) (now : Int) (inputs : Inputs)
    (service_id : Int) (service_registry_address : String)
    (staking_contract_address : String) (unstake : Bool) : Nat × List Event :=
  let S := chain staking_contract_address
  let trHead : List Event :=
    [Event.read staking_contract_address Field.nextCheckpointTs,
     Event.read staking_contract_address Field.livenessPeriod,
     Event.read staking_contract_address Field.availableRewards]
  if unstake then
    if S.isStaked = false then
      (0, trHead ++ [Event.read staking_contract_address Field.isStaked])
    else
      let trE : List Event :=
        if S.isEvicted then
          [Event.read staking_contract_address Field.isEvicted,
           Event.promptE "eviction_ack"]
        else [Event.read staking_contract_address Field.isEvicted]
      let chk := check_unstaking_availability chain now service_id
        staking_contract_address "Coastal"
      let tr1 := trHead ++ [Event.read staking_contract_address Field.isStaked] ++
        trE ++ chk.2
      if chk.1 = false then
        (1, tr1)
      else
        if now < S.nextCheckpointTs then
          if lowerStr inputs.checkpointConfirm ∈ (["yes", "y"] : List String) then
            (0, tr1 ++ [Event.promptE "checkpoint_confirm",
              Event.sendBatch (BatchKind.unstakeB staking_contract_address)])
          else
            (1, tr1 ++ [Event.promptE "checkpoint_confirm"])
        else
          (0, tr1 ++ [Event.sendBatch (BatchKind.unstakeB staking_contract_address)])
  else
    if S.isStaked then
      let tr2 := trHead ++
        [Event.read staking_contract_address Field.isStaked,
         Event.read staking_contract_address Field.isEvicted]
      if S.isEvicted then
        let chk := check_unstaking_availability chain now service_id
          staking_contract_address "Coastal"
        if chk.1 = false then
          (1, tr2 ++ chk.2)
        else
          let ts := try_stake_service chain service_id service_registry_address
            staking_contract_address "Coastal"
          (ts.1, tr2 ++ chk.2 ++
            [Event.sendBatch (BatchKind.unstakeB staking_contract_address)] ++ ts.2)
      else
        if S.availableRewards = 0 then
          (0, tr2 ++ [Event.read staking_contract_address Field.availableRewards,
            Event.sendBatch (BatchKind.unstakeB staking_contract_address)])
        else
          (0, tr2 ++ [Event.read staking_contract_address Field.availableRewards])
    else
      let ts := try_stake_service chain service_id service_registry_address
        staking_contract_address "Coastal"
      (ts.1, trHead ++ [Event.read staking_contract_address Field.isStaked] ++ ts.2)

/-- Embedding of the body of `main` (staking.py lines 196-390): the legacy
sweep runs first; if it exits, the run terminates with its code and trace,
otherwise the decision engine runs and its events follow the sweep's. -/
def staking_main (chain : Chain) (now : Int) (inputs : Inputs)
    (service_id : Int) (service_registry_address : String)
    (staking_contract_address : String) (unstake : Bool) : Nat × List Event :=
  match unstake_all_old_programs chain now inputs service_id with
  | StepOut.exit c tr => (c, tr)
  | StepOut.cont tr =>
    let r := decision_engine chain now inputs service_id
      service_registry_address staking_contract_address unstake
    (r.1, tr ++ r.2)

/-- Outcome of the body of `main` as seen by the top-level handler
(staking.py lines 196-399): `exited` is a `sys.exit` (a `SystemExit`, which
the `except Exception` clause does not catch), `raised` is any other
exception reaching the top level. -/
inductive BodyOutcome
  | exited (code : Nat) (tr : List Event)
  | raised (message : String)

/-- Effects of the top-level of `main`: whether the handler ran (and how
many times), whether it printed the traceback, cleared the `USE_STAKING`
key of the environment file, printed the re-verification guidance, and the
process exit code. -/
structure HandlerEffects where
  handlerRuns : Nat
  tracebackLogged : Bool
  useStakingCleared : Bool
  guidanceShown : Bool
  exitCode : Nat
deriving DecidableEq, Repr

/-- Embedding of the top-level `try/except` of `main` (staking.py lines
392-399): a deliberate termination passes through untouched; any other
exception runs the handler once, which logs the traceback, unsets
`USE_STAKING`, prints the guidance and exits 1. -/
def topLevel : BodyOutcome → HandlerEffects
  | BodyOutcome.exited c _ =>
    { handlerRuns := 0, tracebackLogged := false, useStakingCleared := false,
      guidanceShown := false, exitCode := c }
  | BodyOutcome.raised _ =>
    { handlerRuns := 1, tracebackLogged := true, useStakingCleared := true,
      guidanceShown := true, exitCode := 1 }

/-- Whether an event is a transaction-batch submission. -/
def isSend : Event → Bool
  | Event.sendBatch _ => true
  | _ => false

/-- The sequence of fields read from the given contract address along a
trace. -/
def readEvents (addr : String) (tr : List Event) : List Field :=
  tr.filterMap fun e =>
    match e with
    | Event.read a g => if a = addr then some g else none
    | _ => none

/-- Whether a trace reads field `f` of contract `addr`, later submits some
transaction batch, and later still reads the same field of the same
contract again. -/
def rereadAfterAction (addr : String) (f : Field) (tr : List Event) : Bool :=
  match tr.dropWhile (fun e => !(e == Event.read addr f)) with
  | [] => false
  | _ :: rest =>
    match rest.dropWhile (fun e => !(isSend e)) with
    | [] => false
    | _ :: rest2 => rest2.any (fun e => e == Event.read addr f)

/-- Operator who answers every prompt with the empty string. -/
def inputs0 : Inputs := ⟨fun _ => "", fun _ => "", "", ""⟩

/-- Operator who refuses the checkpoint confirmation. -/
def inputsNo : Inputs := ⟨fun _ => "", fun _ => "", "", "no"⟩

/-- Operator who confirms every legacy-program unstake. -/
def inputsYes : Inputs := ⟨fun _ => "", fun _ => "yes", "", ""⟩

/-- Snapshot: staked and evicted on the target contract, minimum staking
duration not yet elapsed (at time 10), rewards remaining. -/
def cLock : ContractState :=
  { stakedIds := [], isStaked := true, isEvicted := true, tsStart := 0,
    minStakingDuration := 100, availableRewards := 5, availableSlots := 2,
    nextCheckpointTs := 0, livenessPeriod := 0 }

/-- Snapshot: staked and evicted on the target contract, minimum staking
duration elapsed (at time 200), slots and rewards available. -/
def cEvFree : ContractState :=
  { stakedIds := [], isStaked := true, isEvicted := true, tsStart := 0,
    minStakingDuration := 100, availableRewards := 5, availableSlots := 2,
    nextCheckpointTs := 0, livenessPeriod := 0 }

/-- Snapshot: staked, not evicted, no rewards left in the contract. -/
def cNoRewards : ContractState :=
  { stakedIds := [], isStaked := true, isEvicted := false, tsStart := 0,
    minStakingDuration := 100, availableRewards := 0, availableSlots := 2,
    nextCheckpointTs := 0, livenessPeriod := 0 }

/-- Snapshot: not staked and all staking slots taken. -/
def cSlots0 : ContractState :=
  { stakedIds := [], isStaked := false, isEvicted := false, tsStart := 0,
    minStakingDuration := 100, availableRewards := 5, availableSlots := 0,
    nextCheckpointTs := 0, livenessPeriod := 0 }

/-- Snapshot: staked, not evicted, duration lock elapsed at time 200 but the
next checkpoint (time 300) not yet reached. -/
def cConfirm : ContractState :=
  { stakedIds := [], isStaked := true, isEvicted := false, tsStart := 0,
    minStakingDuration := 100, availableRewards := 5, availableSlots := 2,
    nextCheckpointTs := 300, livenessPeriod := 100 }

/-- Snapshot: service 1 staked on every program, including membership in the
Everest service-id list. -/
def cAll : ContractState :=
  { stakedIds := [1], isStaked := true, isEvicted := false, tsStart := 0,
    minStakingDuration := 100, availableRewards := 5, availableSlots := 2,
    nextCheckpointTs := 0, livenessPeriod := 0 }

/-- The chain reads performed by the unstaking-availability check are the
same on both of its branches. -/
theorem check_snd (chain : Chain) (now : Int) (service_id : Int)
    (addr prog : String) :
    (check_unstaking_availability chain now service_id addr prog).2 =
      [Event.read addr Field.tsStart, Event.read addr Field.minDuration,
       Event.read addr Field.availableRewards] := by
  unfold check_unstaking_availability
  split <;> rfl

/-- The stake attempt never submits an unstake batch. -/
theorem try_stake_no_unstake (chain : Chain) (service_id : Int)
    (sra sca prog a : String) :
    Event.sendBatch (BatchKind.unstakeB a) ∉
      (try_stake_service chain service_id sra sca prog).2 := by
  unfold try_stake_service
  split
  · split <;> simp
  · simp

/-- Every run of a legacy-program step reads the program's staked status
first: the service-id membership list for Everest-named programs, the
staked flag for the others. -/
theorem old_program_first_read (chain : Chain) (now : Int) (inputs : Inputs)
    (service_id : Int) (addr name : String) :
    (pyStartswith name "Everest" = true →
      Event.read addr Field.serviceIds ∈
        (unstake_old_program chain now inputs service_id addr name).trace) ∧
    (pyStartswith name "Everest" = false →
      Event.read addr Field.isStaked ∈
        (unstake_old_program chain now inputs service_id addr name).trace) := by
  constructor <;> intro h <;>
    (unfold unstake_old_program old_program_confirm
     rw [h]
     split_ifs <;> simp_all [StepOut.trace, check_snd])

/-- When the legacy sweep runs to completion, every one of the three
deprecated programs was processed and the sweep trace is the concatenation
of their step traces, in table order. -/
theorem sweep_cont_decomp (chain : Chain) (now : Int) (inputs : Inputs)
    (service_id : Int) (trS : List Event)
    (h : unstake_all_old_programs chain now inputs service_id = StepOut.cont trS) :
    ∃ trE trA trC,
      unstake_old_program chain now inputs service_id EverestAddr "Everest" =
        StepOut.cont trE ∧
      unstake_old_program chain now inputs service_id AlpineAddr "Alpine" =
        StepOut.cont trA ∧
      unstake_old_program chain now inputs service_id CoastalTestAddr "CoastalTest" =
        StepOut.cont trC ∧
      trS = trE ++ trA ++ trC := by
  unfold unstake_all_old_programs OLD_STAKING_PROGRAMS at h
  simp only [List.foldl] at h
  rcases hE : unstake_old_program chain now inputs service_id EverestAddr "Everest" with
    ⟨cE, trE0⟩ | trE <;> simp only [stepProg, hE] at h
  · cases h
  rcases hA : unstake_old_program chain now inputs service_id AlpineAddr "Alpine" with
    ⟨cA, trA0⟩ | trA <;> simp only [stepProg, hA] at h
  · cases h
  rcases hC : unstake_old_program chain now inputs service_id CoastalTestAddr
      "CoastalTest" with ⟨cC, trC0⟩ | trC <;> simp only [stepProg, hC] at h
  · cases h
  cases h
  exact ⟨trE, trA, trC, rfl, rfl, rfl, by simp⟩

/-- Claim C1, counterexample: on a snapshot where the service is staked and
evicted on the target contract, no explicit unstake was requested, the
duration lock is still active and rewards remain, the engine terminates
with exit code 1 and does not submit any unstake batch, so it is not the
case that it always submits an unstake batch regardless of
availableRewards. -/
theorem c1_always_unstake_counterexample :
    cLock.isStaked = true ∧ cLock.isEvicted = true ∧
    (decision_engine (fun _ => cLock) 10 inputs0 1 "r" "s" false).1 = 1 ∧
    ¬ Event.sendBatch (BatchKind.unstakeB "s") ∈
      (decision_engine (fun _ => cLock) 10 inputs0 1 "r" "s" false).2 := by
  decide

/-- Claim C1, amended: for every snapshot where the service is staked and
evicted on the target contract and no explicit unstake was requested, if
the duration lock is active while rewards remain the engine terminates
with exit code 1 submitting no transaction; otherwise it submits the
unstake batch and then attempts to re-stake following the stake-attempt
rule (its exit code and remaining trace are those of the stake attempt). -/
theorem c1_evicted_restake_amended (chain : Chain) (now : Int) (inputs : Inputs)
    (service_id : Int) (sra sca : String)
    (hst : (chain sca).isStaked = true)
    (hev : (chain sca).isEvicted = true) :
    if now - (chain sca).tsStart < (chain sca).minStakingDuration ∧
        0 < (chain sca).availableRewards then
      (decision_engine chain now inputs service_id sra sca false).1 = 1 ∧
      (decision_engine chain now inputs service_id sra sca false).2.filter isSend = []
    else
      ∃ pre,
        (decision_engine chain now inputs service_id sra sca false).1 =
          (try_stake_service chain service_id sra sca "Coastal").1 ∧
        (decision_engine chain now inputs service_id sra sca false).2 =
          pre ++ Event.sendBatch (BatchKind.unstakeB sca) ::
            (try_stake_service chain service_id sra sca "Coastal").2 ∧
        pre.filter isSend = [] := by
  split
  case isTrue h =>
    have hchk : (check_unstaking_availability chain now service_id sca "Coastal").1 =
        false := by
      unfold check_unstaking_availability
      rw [if_pos h]
    unfold decision_engine
    simp [hchk, hst, hev, check_snd, isSend]
  case isFalse h =>
    have hchk : (check_unstaking_availability chain now service_id sca "Coastal").1 =
        true := by
      unfold check_unstaking_availability
      rw [if_neg h]
    refine ⟨[Event.read sca Field.nextCheckpointTs,
      Event.read sca Field.livenessPeriod,
      Event.read sca Field.availableRewards,
      Event.read sca Field.isStaked,
      Event.read sca Field.isEvicted,
      Event.read sca Field.tsStart,
      Event.read sca Field.minDuration,
      Event.read sca Field.availableRewards], ?_, ?_, ?_⟩
    · unfold decision_engine
      simp [hchk, hst, hev]
    · unfold decision_engine
      simp [hchk, hst, hev, check_snd]
    · simp [isSend]

/-- Claim C1, witness: on the locked evicted snapshot the amended statement
yields exit code 1 and no submitted batch. -/
theorem c1_evicted_restake_amended_witness :
    cLock.isStaked = true ∧ cLock.isEvicted = true ∧
    (decision_engine (fun _ => cLock) 10 inputs0 1 "r" "s" false).1 = 1 ∧
    (decision_engine (fun _ => cLock) 10 inputs0 1 "r" "s" false).2.filter isSend = [] := by
  have h := c1_evicted_restake_amended (fun _ => cLock) 10 inputs0 1 "r" "s" rfl rfl
  rw [if_pos (by decide)] at h
  exact ⟨rfl, rfl, h.1, h.2⟩

/-- Claim C2: if the minimum staking duration has not elapsed and rewards
remain, no path of the decision engine submits an unstake batch against the
target contract, for any value of the unstake flag and any snapshot. -/
theorem c2_duration_lock_blocks_unstake (chain : Chain) (now : Int)
    (inputs : Inputs) (service_id : Int) (sra sca : String) (unstake : Bool)
    (hdur : now - (chain sca).tsStart < (chain sca).minStakingDuration)
    (hrew : 0 < (chain sca).availableRewards) :
    Event.sendBatch (BatchKind.unstakeB sca) ∉
      (decision_engine chain now inputs service_id sra sca unstake).2 := by
  have hchk : (check_unstaking_availability chain now service_id sca "Coastal").1 =
      false := by
    unfold check_unstaking_availability
    rw [if_pos ⟨hdur, hrew⟩]
  have hr0 : ¬ (chain sca).availableRewards = 0 := by omega
  unfold decision_engine
  simp only [hchk, check_snd]
  split_ifs <;> simp_all [try_stake_no_unstake]

/-- Claim C2, witness: on the locked snapshot with rewards remaining the
explicit-unstake run submits no unstake batch. -/
theorem c2_duration_lock_blocks_unstake_witness :
    (10 : Int) - cLock.tsStart < cLock.minStakingDuration ∧
    0 < cLock.availableRewards ∧
    Event.sendBatch (BatchKind.unstakeB "s") ∉
      (decision_engine (fun _ => cLock) 10 inputs0 1 "r" "s" true).2 := by
  exact ⟨by decide, by decide,
    c2_duration_lock_blocks_unstake (fun _ => cLock) 10 inputs0 1 "r" "s" true
      (by decide) (by decide)⟩

/-- Claim C3, counterexample: on the staked-and-evicted snapshot with the
lock elapsed, the engine reads availableRewards of the target contract,
submits a transaction batch, and then reads availableRewards again from the
chain within the same decision, so the decision is not made from a single
read of each field. -/
theorem c3_snapshot_counterexample :
    rereadAfterAction "s" Field.availableRewards
      (decision_engine (fun _ => cEvFree) 200 inputs0 1 "r" "s" false).2 = true := by
  decide

/-- Claim C3, amended: within one decision of the engine, every field of
the target staking contract other than availableRewards is read at most
once from the chain; availableRewards alone may be read again after being
acted on (it is re-read by the staked-rewards check and by the stake
attempt that follows the eviction-triggered unstake). -/
theorem c3_single_read_amended (chain : Chain) (now : Int) (inputs : Inputs)
    (service_id : Int) (sra sca : String) (unstake : Bool) :
    ((readEvents sca
        (decision_engine chain now inputs service_id sra sca unstake).2).filter
      (fun g => !(g == Field.availableRewards))).Nodup := by
  unfold decision_engine try_stake_service
  simp only [check_snd]
  split_ifs <;> simp [readEvents, List.filterMap_append, isSend]

/-- Claim C4: for every snapshot where the service is staked and not
evicted and no explicit unstake was requested, the engine submits exactly
one unstake batch and exits 0 when availableRewards is zero, and submits
nothing and exits 0 when rewards remain. -/
theorem c4_staked_not_evicted (chain : Chain) (now : Int) (inputs : Inputs)
    (service_id : Int) (sra sca : String)
    (hst : (chain sca).isStaked = true)
    (hev : (chain sca).isEvicted = false) :
    ((chain sca).availableRewards = 0 →
      (decision_engine chain now inputs service_id sra sca false).1 = 0 ∧
      (decision_engine chain now inputs service_id sra sca false).2.filter isSend =
        [Event.sendBatch (BatchKind.unstakeB sca)]) ∧
    (0 < (chain sca).availableRewards →
      (decision_engine chain now inputs service_id sra sca false).1 = 0 ∧
      (decision_engine chain now inputs service_id sra sca false).2.filter isSend =
        []) := by
  constructor
  · intro h0
    unfold decision_engine
    simp [hst, hev, h0, isSend]
  · intro hpos
    have h0 : ¬ (chain sca).availableRewards = 0 := by omega
    unfold decision_engine
    simp [hst, hev, h0, isSend]

/-- Claim C4, witness: on the staked, non-evicted, zero-rewards snapshot the
engine submits exactly the unstake batch and exits 0. -/
theorem c4_staked_not_evicted_witness :
    cNoRewards.isStaked = true ∧ cNoRewards.isEvicted = false ∧
    cNoRewards.availableRewards = 0 ∧
    (decision_engine (fun _ => cNoRewards) 0 inputs0 1 "r" "s" false).1 = 0 ∧
    (decision_engine (fun _ => cNoRewards) 0 inputs0 1 "r" "s" false).2.filter isSend =
      [Event.sendBatch (BatchKind.unstakeB "s")] := by
  have h := (c4_staked_not_evicted (fun _ => cNoRewards) 0 inputs0 1 "r" "s"
    rfl rfl).1 rfl
  exact ⟨rfl, rfl, rfl, h.1, h.2⟩

/-- Claim C5: the stake attempt checks slots first: with no slot available
it exits non-zero submitting nothing and without even reading the rewards;
with a slot but zero rewards it exits 0 submitting nothing; otherwise it
exits 0 after submitting exactly the stake batch built from the service
registry and staking contract addresses. -/
theorem c5_stake_attempt (chain : Chain) (service_id : Int)
    (sra sca prog : String) :
    ((chain sca).availableSlots ≤ 0 →
      (try_stake_service chain service_id sra sca prog).1 ≠ 0 ∧
      (try_stake_service chain service_id sra sca prog).2.filter isSend = [] ∧
      Event.read sca Field.availableRewards ∉
        (try_stake_service chain service_id sra sca prog).2) ∧
    (0 < (chain sca).availableSlots →
      (chain sca).availableRewards = 0 →
      (try_stake_service chain service_id sra sca prog).1 = 0 ∧
      (try_stake_service chain service_id sra sca prog).2.filter isSend = []) ∧
    (0 < (chain sca).availableSlots →
      (chain sca).availableRewards ≠ 0 →
      (try_stake_service chain service_id sra sca prog).1 = 0 ∧
      (try_stake_service chain service_id sra sca prog).2.filter isSend =
        [Event.sendBatch (BatchKind.stakeB sra sca)]) := by
  refine ⟨fun hle => ?_, fun hpos h0 => ?_, fun hpos h0 => ?_⟩
  · have h : ¬ 0 < (chain sca).availableSlots := by omega
    unfold try_stake_service
    simp [h, isSend]
  · unfold try_stake_service
    simp [hpos, h0, isSend]
  · unfold try_stake_service
    simp [hpos, h0, isSend]

/-- Claim C5, witness: with all slots taken the stake attempt exits
non-zero, submits nothing and never reads the rewards. -/
theorem c5_stake_attempt_witness :
    cSlots0.availableSlots ≤ 0 ∧
    (try_stake_service (fun _ => cSlots0) 1 "r" "s" "Coastal").1 ≠ 0 ∧
    (try_stake_service (fun _ => cSlots0) 1 "r" "s" "Coastal").2.filter isSend = [] ∧
    Event.read "s" Field.availableRewards ∉
      (try_stake_service (fun _ => cSlots0) 1 "r" "s" "Coastal").2 := by
  have h := (c5_stake_attempt (fun _ => cSlots0) 1 "r" "s" "Coastal").1 (by decide)
  exact ⟨by decide, h.1, h.2.1, h.2.2⟩

/-- Claim C6: with unstake requested, the service staked, the duration
check passed and the current time before the next checkpoint, the engine
consumes the checkpoint confirmation prompt and, whenever the answer does
not lower-case to an affirmative, terminates with exit code 1 without
submitting any transaction. -/
theorem c6_checkpoint_refusal (chain : Chain) (now : Int) (inputs : Inputs)
    (service_id : Int) (sra sca : String)
    (hst : (chain sca).isStaked = true)
    (hdur : ¬(now - (chain sca).tsStart < (chain sca).minStakingDuration ∧
      0 < (chain sca).availableRewards))
    (hnext : now < (chain sca).nextCheckpointTs)
    (hno : lowerStr inputs.checkpointConfirm ∉ (["yes", "y"] : List String)) :
    (decision_engine chain now inputs service_id sra sca true).1 = 1 ∧
    Event.promptE "checkpoint_confirm" ∈
      (decision_engine chain now inputs service_id sra sca true).2 ∧
    (decision_engine chain now inputs service_id sra sca true).2.filter isSend = [] := by
  have hchk : (check_unstaking_availability chain now service_id sca "Coastal").1 =
      true := by
    unfold check_unstaking_availability
    rw [if_neg hdur]
  unfold decision_engine
  simp only [hst, hchk, check_snd]
  split_ifs <;> simp_all [isSend, check_snd]

/-- Claim C6, witness: on the pre-checkpoint snapshot the answer no makes
the run exit 1 after the confirmation prompt, with no batch submitted. -/
theorem c6_checkpoint_refusal_witness :
    cConfirm.isStaked = true ∧
    ¬((200 : Int) - cConfirm.tsStart < cConfirm.minStakingDuration ∧
      0 < cConfirm.availableRewards) ∧
    (200 : Int) < cConfirm.nextCheckpointTs ∧
    lowerStr inputsNo.checkpointConfirm ∉ (["yes", "y"] : List String) ∧
    (decision_engine (fun _ => cConfirm) 200 inputsNo 1 "r" "s" true).1 = 1 ∧
    Event.promptE "checkpoint_confirm" ∈
      (decision_engine (fun _ => cConfirm) 200 inputsNo 1 "r" "s" true).2 ∧
    (decision_engine (fun _ => cConfirm) 200 inputsNo 1 "r" "s" true).2.filter isSend =
      [] := by
  have h := c6_checkpoint_refusal (fun _ => cConfirm) 200 inputsNo 1 "r" "s"
    rfl (by decide) (by decide) (by decide)
  exact ⟨rfl, by decide, by decide, by decide, h.1, h.2.1, h.2.2⟩

/-- Claim C7: the run either terminates inside the legacy sweep, in which
case the decision engine contributes nothing, or the sweep completed over
all three deprecated programs (each one's staked check appears in the sweep
trace) and every decision-engine event, in particular every transaction it
submits, comes after the whole sweep trace. -/
theorem c7_sweep_before_engine (chain : Chain) (now : Int) (inputs : Inputs)
    (service_id : Int) (sra sca : String) (unstake : Bool) :
    (∃ c trS, unstake_all_old_programs chain now inputs service_id =
        StepOut.exit c trS ∧
      staking_main chain now inputs service_id sra sca unstake = (c, trS)) ∨
    (∃ trS, unstake_all_old_programs chain now inputs service_id =
        StepOut.cont trS ∧
      staking_main chain now inputs service_id sra sca unstake =
        ((decision_engine chain now inputs service_id sra sca unstake).1,
          trS ++ (decision_engine chain now inputs service_id sra sca unstake).2) ∧
      Event.read EverestAddr Field.serviceIds ∈ trS ∧
      Event.read AlpineAddr Field.isStaked ∈ trS ∧
      Event.read CoastalTestAddr Field.isStaked ∈ trS) := by
  cases h : unstake_all_old_programs chain now inputs service_id with
  | exit c trS =>
    left
    exact ⟨c, trS, rfl, by unfold staking_main; rw [h]⟩
  | cont trS =>
    right
    obtain ⟨trE, trA, trC, hE, hA, hC, htr⟩ :=
      sweep_cont_decomp chain now inputs service_id trS h
    have h1 := (old_program_first_read chain now inputs service_id EverestAddr
      "Everest").1 (by decide)
    have h2 := (old_program_first_read chain now inputs service_id AlpineAddr
      "Alpine").2 (by decide)
    have h3 := (old_program_first_read chain now inputs service_id CoastalTestAddr
      "CoastalTest").2 (by decide)
    rw [hE] at h1
    rw [hA] at h2
    rw [hC] at h3
    simp only [StepOut.trace] at h1 h2 h3
    refine ⟨trS, rfl, by unfold staking_main; rw [h], ?_, ?_, ?_⟩ <;>
      simp [htr, h1, h2, h3]

/-- Claim C8: every exception reaching the top level that is not a
deliberate termination runs the handler exactly once, which logs the
traceback, clears the USE_STAKING key, prints the re-verification guidance
and exits non-zero; a deliberate termination never runs the handler. -/
theorem c8_top_level_handler (message : String) :
    topLevel (BodyOutcome.raised message) =
      { handlerRuns := 1, tracebackLogged := true, useStakingCleared := true,
        guidanceShown := true, exitCode := 1 } ∧
    (topLevel (BodyOutcome.raised message)).exitCode ≠ 0 ∧
    (∀ code tr, (topLevel (BodyOutcome.exited code tr)).handlerRuns = 0) := by
  refine ⟨rfl, by simp [topLevel], fun code tr => rfl⟩

/-- Claim C9: the positional unstake argument goes through Python's bool
constructor, so every non-empty string (including the strings False and 0)
selects the unstake path and only the empty string yields false. -/
theorem c9_unstake_arg_conversion :
    (∀ s : String, s ≠ "" → pyBool s = true) ∧
    pyBool "False" = true ∧ pyBool "0" = true ∧ pyBool "" = false := by
  refine ⟨fun s hs => ?_, by decide, by decide, by decide⟩
  simp [pyBool, hs]

/-- Claim C9, witness: the string False is non-empty and converts to
true. -/
theorem c9_unstake_arg_conversion_witness :
    "False" ≠ "" ∧ pyBool "False" = true := by
  exact ⟨by decide, c9_unstake_arg_conversion.1 "False" (by decide)⟩

/-- Claim C10: the sweep's Everest step never evaluates the
unstaking-availability guard: when the service is in the Everest service-id
list and the operator confirms, its whole trace is the membership read, the
confirmation prompt and the Everest unstake batch; whereas the Alpine and
CoastalTest steps, when the service is staked there, read the guard fields
(stake start, minimum duration, rewards) right after the staked flag. -/
theorem c10_everest_no_guard (chain : Chain) (now : Int) (inputs : Inputs)
    (service_id : Int)
    (hmem : service_id ∈ (chain EverestAddr).stakedIds)
    (hyes : lowerStr (inputs.oldConfirm "Everest") ∈ (["yes", "y"] : List String))
    (hstA : (chain AlpineAddr).isStaked = true)
    (hstC : (chain CoastalTestAddr).isStaked = true) :
    unstake_old_program chain now inputs service_id EverestAddr "Everest" =
      StepOut.cont [Event.read EverestAddr Field.serviceIds,
        Event.promptE "old_confirm",
        Event.sendBatch (BatchKind.unstakeB EverestAddr)] ∧
    ((unstake_old_program chain now inputs service_id AlpineAddr "Alpine").trace).take 4 =
      [Event.read AlpineAddr Field.isStaked, Event.read AlpineAddr Field.tsStart,
       Event.read AlpineAddr Field.minDuration,
       Event.read AlpineAddr Field.availableRewards] ∧
    ((unstake_old_program chain now inputs service_id CoastalTestAddr
        "CoastalTest").trace).take 4 =
      [Event.read CoastalTestAddr Field.isStaked,
       Event.read CoastalTestAddr Field.tsStart,
       Event.read CoastalTestAddr Field.minDuration,
       Event.read CoastalTestAddr Field.availableRewards] := by
  refine ⟨?_, ?_, ?_⟩
  · unfold unstake_old_program old_program_confirm
    rw [if_pos (by decide : pyStartswith "Everest" "Everest" = true)]
    simp [hmem, hyes]
  · unfold unstake_old_program old_program_confirm
    rw [if_neg (by simp [(by decide : pyStartswith "Alpine" "Everest" = false)])]
    simp only [hstA, check_snd]
    split_ifs <;> simp [StepOut.trace, check_snd]
  · unfold unstake_old_program old_program_confirm
    rw [if_neg (by simp [(by decide : pyStartswith "CoastalTest" "Everest" = false)])]
    simp only [hstC, check_snd]
    split_ifs <;> simp [StepOut.trace, check_snd]

/-- Claim C10, witness: on a snapshot where service 1 is staked on every
legacy program and the operator confirms, the Everest step trace is exactly
membership read, prompt, unstake batch, and the boolean-query steps read
the guard fields. -/
theorem c10_everest_no_guard_witness :
    (1 : Int) ∈ cAll.stakedIds ∧
    lowerStr (inputsYes.oldConfirm "Everest") ∈ (["yes", "y"] : List String) ∧
    cAll.isStaked = true ∧
    unstake_old_program (fun _ => cAll) 0 inputsYes 1 EverestAddr "Everest" =
      StepOut.cont [Event.read EverestAddr Field.serviceIds,
        Event.promptE "old_confirm",
        Event.sendBatch (BatchKind.unstakeB EverestAddr)] ∧
    ((unstake_old_program (fun _ => cAll) 0 inputsYes 1 AlpineAddr
        "Alpine").trace).take 4 =
      [Event.read AlpineAddr Field.isStaked, Event.read AlpineAddr Field.tsStart,
       Event.read AlpineAddr Field.minDuration,
       Event.read AlpineAddr Field.availableRewards] := by
  have h := c10_everest_no_guard (fun _ => cAll) 0 inputsYes 1
    (by decide) (by decide) rfl rfl
  exact ⟨by decide, by decide, rfl, h.1, h.2.1⟩

end StakingScript
